import Mathlib

/-!
Shallow embedding of the two simulator scripts of the repository:
`src/flogo/sample-templates/mqtt-realtime-inventory-managment/skeleton/src/simulator/inventory_events.py`
(the broker variant) and
`src/flogo/sample-templates/grpc-api/skeleton/client/simulate_sensor_data.py`
(the RPC variant).

Randomness (`random.choice`, `random.uniform`, `uuid.uuid4`) and the wall
clock (`datetime.now`, `time.strftime`) are modelled as explicit inputs:
each call site receives the value the library call would have produced.
Side effects (publish, print, sleep, connect, disconnect) are modelled as
an explicit trace of actions.  Python floats are modelled as rationals.
-/

/-! ## Module-level constants of inventory_events.py -/

/-- MQTT_BROKER constant of inventory_events.py. -/
def MQTT_BROKER : String := "localhost"

/-- MQTT_PORT constant of inventory_events.py. -/
def MQTT_PORT : Nat := 1883

/-- MQTT_USER constant of inventory_events.py (empty). -/
def MQTT_USER : String := ""

/-- MQTT_PASSWORD constant of inventory_events.py (empty). -/
def MQTT_PASSWORD : String := ""

/-- STORES list of inventory_events.py. -/
def STORES : List String := ["london", "munich", "paris", "berlin"]

/-- ITEMS list of inventory_events.py. -/
def ITEMS : List String := ["TSHIRT-001", "JEANS-002", "SNEAKERS-003", "HAT-004", "SCARF-005"]

/-- The literal list `[-2, -1, 1, 2]` passed to `random.choice` for
`quantity_change` in `run_sensor_simulation`. -/
def QUANTITY_CHOICES : List Int := [-2, -1, 1, 2]

/-! ## JSON values and `json.dumps`

The inventory payload is a Python dict whose values are strings and one
int, serialized with `json.dumps(payload)` using the default settings
(separators `", "` and `": "`, `ensure_ascii=True`).  We model exactly the
fragment of JSON the script produces: a one-level object whose values are
strings or integers. -/

/-- A JSON value of the fragment used by the script: a string or an int. -/
inductive JVal where
  | jstr (s : String)
  | jint (n : Int)
deriving DecidableEq, Repr

/-- A JSON object as an ordered association list, the model of a Python
dict (insertion order preserved, as Python guarantees). -/
abbrev JObj := List (String × JVal)

/-- The decimal digit character for `d < 10`. -/
def digitChar (d : Nat) : Char := Char.ofNat (48 + d)

/-- A lowercase hexadecimal digit character for `d < 16`. -/
def hexChar (d : Nat) : Char :=
  if d < 10 then Char.ofNat (48 + d) else Char.ofNat (87 + d)

/-- Decimal digits of `n`, most significant first, by repeated division;
the fuel (any bound on `n`) makes the recursion structural so that the
rendering evaluates inside the kernel. -/
def natDigitsAux : Nat → Nat → List Char
  | _, 0 => []
  | 0, _ + 1 => []
  | fuel + 1, n + 1 => natDigitsAux fuel ((n + 1) / 10) ++ [digitChar ((n + 1) % 10)]

/-- Decimal rendering of a natural number, most significant digit first,
as Python's `str`/`json.dumps` print it. -/
def natChars (n : Nat) : List Char :=
  if n = 0 then ['0'] else natDigitsAux n n

/-- Decimal rendering of a Python int: a minus sign for negatives. -/
def intChars (n : Int) : List Char :=
  if n < 0 then '-' :: natChars n.natAbs else natChars n.natAbs

/-- Escaping of one character as `json.dumps` does with its default
`ensure_ascii=True`: `"` and `\` get a backslash, the named control
characters get their two-character escapes, all other control characters
and all non-ASCII characters become `\uXXXX` (code points beyond 0xFFFF,
which Python splits into surrogate pairs, are out of the range this
repository's payloads can contain and are rendered from their low 16
bits), and printable ASCII stands for itself. -/
def jsonEscapeChar (c : Char) : List Char :=
  if c = '"' then ['\\', '"']
  else if c = '\\' then ['\\', '\\']
  else if c = Char.ofNat 8 then ['\\', 'b']
  else if c = Char.ofNat 9 then ['\\', 't']
  else if c = Char.ofNat 10 then ['\\', 'n']
  else if c = Char.ofNat 12 then ['\\', 'f']
  else if c = Char.ofNat 13 then ['\\', 'r']
  else if c.toNat < 32 ∨ 127 ≤ c.toNat then
    ['\\', 'u', hexChar (c.toNat / 4096 % 16), hexChar (c.toNat / 256 % 16),
     hexChar (c.toNat / 16 % 16), hexChar (c.toNat % 16)]
  else [c]

/-- Escape every character of a string body. -/
def escapeList : List Char → List Char
  | [] => []
  | c :: rest => jsonEscapeChar c ++ escapeList rest

/-- A JSON string literal: quote, escaped body, quote. -/
def quoteChars (s : String) : List Char :=
  '"' :: (escapeList s.toList ++ ['"'])

/-- Rendering of one JSON value. -/
def jvalChars : JVal → List Char
  | .jstr s => quoteChars s
  | .jint n => intChars n

/-- Rendering of one `key: value` member with the default `": "`
separator of `json.dumps`. -/
def memberChars (kv : String × JVal) : List Char :=
  quoteChars kv.1 ++ ':' :: ' ' :: jvalChars kv.2

/-- Rendering of the members of an object joined by the default `", "`
separator of `json.dumps`. -/
def membersChars : JObj → List Char
  | [] => []
  | [kv] => memberChars kv
  | kv :: rest => memberChars kv ++ ',' :: ' ' :: membersChars rest

/-- `json.dumps` on the object fragment: braces around the members. -/
def json_dumps (o : JObj) : String :=
  String.mk ('{' :: (membersChars o ++ ['}']))

/-! ## `json.loads` on the same fragment

A recursive-descent parser for the canonical text `json_dumps` emits:
an object of string/int values with `": "` and `", "` separators.  It is
the restriction of `json.loads` to that grammar (on any other text it
answers `none` where `json.loads` may still succeed; on this grammar it
agrees with `json.loads`). -/

/-- Parse the body of a string literal up to the closing quote,
understanding the `\"` and `\\` escapes (the only ones `json_dumps`
produces for the printable-ASCII payloads of this script). -/
def parseStringBody : List Char → Option (List Char × List Char)
  | [] => none
  | c :: rest =>
    if c = '"' then some ([], rest)
    else if c = '\\' then
      match rest with
      | [] => none
      | c2 :: r2 =>
        if c2 = '"' ∨ c2 = '\\' then
          match parseStringBody r2 with
          | none => none
          | some (s, r) => some (c2 :: s, r)
        else none
    else
      match parseStringBody rest with
      | none => none
      | some (s, r) => some (c :: s, r)

/-- Consume a maximal run of decimal digits, accumulating their value. -/
def parseDigitsAux : List Char → Nat → Nat × List Char
  | [], acc => (acc, [])
  | c :: rest, acc =>
    if c.isDigit then parseDigitsAux rest (acc * 10 + (c.toNat - 48))
    else (acc, c :: rest)

/-- Parse an integer token: an optional minus sign then at least one
digit. -/
def parseIntToken (cs : List Char) : Option (Int × List Char) :=
  match cs with
  | [] => none
  | c :: rest =>
    if c = '-' then
      match rest with
      | [] => none
      | c2 :: r2 =>
        if c2.isDigit then
          let pr := parseDigitsAux r2 (c2.toNat - 48)
          some (-(pr.1 : Int), pr.2)
        else none
    else if c.isDigit then
      let pr := parseDigitsAux rest (c.toNat - 48)
      some ((pr.1 : Int), pr.2)
    else none

/-- Parse one JSON value of the fragment: a string literal when the
next character is a quote, an integer token otherwise. -/
def parseValue (cs : List Char) : Option (JVal × List Char) :=
  match cs with
  | [] => none
  | c :: rest =>
    if c = '"' then
      match parseStringBody rest with
      | none => none
      | some (s, r) => some (.jstr (String.mk s), r)
    else
      match parseIntToken (c :: rest) with
      | none => none
      | some (n, r) => some (.jint n, r)

/-- Parse a nonempty member list up to and including the closing brace.
`fuel` bounds the number of members (the input length suffices). -/
def parseMembers : Nat → List Char → Option (JObj × List Char)
  | 0, _ => none
  | fuel + 1, cs =>
    match cs with
    | '"' :: rest =>
      match parseStringBody rest with
      | none => none
      | some (k, r1) =>
        match r1 with
        | ':' :: ' ' :: r2 =>
          match parseValue r2 with
          | none => none
          | some (v, r3) =>
            match r3 with
            | ',' :: ' ' :: r4 =>
              match parseMembers fuel r4 with
              | none => none
              | some (kvs, r5) => some ((String.mk k, v) :: kvs, r5)
            | '}' :: r4 => some ([(String.mk k, v)], r4)
            | _ => none
        | _ => none
    | _ => none

/-- `json.loads` on the canonical object text: the whole input must be
one object. -/
def json_loads (s : String) : Option JObj :=
  match s.toList with
  | '{' :: '}' :: rest => if rest = [] then some [] else none
  | '{' :: cs =>
    match parseMembers (cs.length + 1) cs with
    | some (o, []) => some o
    | _ => none
  | _ => none

/-! ## The inventory payload and `publish_inventory_event` -/

/-- The payload dict built in `publish_inventory_event`, as a record with
the same six fields. -/
structure InventoryPayload where
  event_id : String
  item_id : String
  store_id : String
  quantity_change : Int
  event_type : String
  timestamp : String
deriving DecidableEq, Repr

/-- The payload dict in the field order the script writes it, which is
the order `json.dumps` serializes. -/
def payloadJObj (p : InventoryPayload) : JObj :=
  [("event_id", .jstr p.event_id),
   ("item_id", .jstr p.item_id),
   ("store_id", .jstr p.store_id),
   ("quantity_change", .jint p.quantity_change),
   ("event_type", .jstr p.event_type),
   ("timestamp", .jstr p.timestamp)]

/-- The `f"store/{store}/inventory"` topic string. -/
def inventory_topic (store : String) : String :=
  "store/" ++ store ++ "/inventory"

/-- One observable side effect of the broker-variant script. -/
inductive SimAction where
  | connect (host : String) (port keepalive : Nat)
  | loopStart
  | usernamePwSet (user pw : String)
  | publish (topic message : String)
  | printLine (s : String)
  | printPublished (topic : String) (payload : InventoryPayload)
  | sleep (t : ℚ)
  | loopStop
  | disconnect
deriving DecidableEq, Repr

/-- `random.uniform a b` draws `a + (b - a) * u` for a unit draw
`u ∈ [0, 1]`. -/
def uniform (a b u : ℚ) : ℚ := a + (b - a) * u

/-- The library/clock values one call of `publish_inventory_event`
consumes: the `datetime.now().isoformat()` string, the
`str(uuid.uuid4())` string, and the unit draw behind
`random.uniform(10, 20)`. -/
structure IterRand where
  now_iso : String
  uuid : String
  sleepU : ℚ
deriving Repr

/-- `publish_inventory_event(client, store, item_id, quantity_change)`:
builds the topic and the payload dict, publishes the JSON text to the
topic, prints a confirmation, and sleeps `random.uniform(10, 20)`.
Returns the payload together with the emitted action trace. -/
def publish_inventory_event (r : IterRand) (store item_id : String)
    (quantity_change : Int) : InventoryPayload × List SimAction :=
  let topic := inventory_topic store
  let timestamp := r.now_iso
  let event_id := r.uuid
  let event_type := if quantity_change < 0 then "sales" else "restock"
  let payload : InventoryPayload :=
    { event_id := event_id
      item_id := item_id
      store_id := store
      quantity_change := quantity_change
      event_type := event_type
      timestamp := timestamp }
  (payload,
   [SimAction.publish topic (json_dumps (payloadJObj payload)),
    SimAction.printPublished topic payload,
    SimAction.sleep (uniform 10 20 r.sleepU)])

/-! ## `run_sensor_simulation` (broker variant) -/

/-- The random draws one loop iteration of `run_sensor_simulation`
consumes: the indices `random.choice` picks from STORES, ITEMS and
`[-2, -1, 1, 2]`, plus the draws inside `publish_inventory_event`. -/
structure IterData where
  storeIdx : Fin 4
  itemIdx : Fin 5
  qcIdx : Fin 4
  rand : IterRand
deriving Repr

/-- The store `random.choice(STORES)` picks for a given draw. -/
def chosenStore (d : IterData) : String := STORES.get (d.storeIdx.cast (by rfl))

/-- The item `random.choice(ITEMS)` picks for a given draw. -/
def chosenItem (d : IterData) : String := ITEMS.get (d.itemIdx.cast (by rfl))

/-- The quantity change `random.choice([-2, -1, 1, 2])` picks. -/
def chosenQc (d : IterData) : Int := QUANTITY_CHOICES.get (d.qcIdx.cast (by rfl))

/-- The payload one loop iteration constructs. -/
def iterationPayload (d : IterData) : InventoryPayload :=
  (publish_inventory_event d.rand (chosenStore d) (chosenItem d) (chosenQc d)).1

/-- The actions one loop iteration emits. -/
def iterationActions (d : IterData) : List SimAction :=
  (publish_inventory_event d.rand (chosenStore d) (chosenItem d) (chosenQc d)).2

/-- The actions of the `try` block of `run_sensor_simulation`: connect,
start the background loop, print the banner, run the `for _ in
range(100)` loop, then the 5-second grace sleep. -/
def tryBlockActions (rand : Nat → IterData) : List SimAction :=
  [SimAction.connect MQTT_BROKER MQTT_PORT 60,
   SimAction.loopStart,
   SimAction.printLine "Starting inventory sensor simulation..."]
  ++ ((List.range 100).map (fun i => iterationActions (rand i))).flatten
  ++ [SimAction.sleep 5]

/-- The `finally` block: stop the background loop, disconnect, print the
closing line. -/
def finallyActions : List SimAction :=
  [SimAction.loopStop, SimAction.disconnect, SimAction.printLine "Simulation finished."]

/-- The `if MQTT_USER and MQTT_PASSWORD` credential setup before the
`try` block (both constants are empty, so it is skipped). -/
def credentialActions : List SimAction :=
  if MQTT_USER ≠ "" ∧ MQTT_PASSWORD ≠ "" then
    [SimAction.usernamePwSet MQTT_USER MQTT_PASSWORD]
  else []

/-- `run_sensor_simulation()`.  `exc` models an exception of Python class
`Exception` raised inside the `try` block: `some (k, msg)` means the
exception surfaces after the first `k` actions of the block have run.
The `except` clause prints the error, the `finally` clause always runs,
the function returns normally in both cases, so the process exit status
(second component) is 0 on both paths. -/
def run_sensor_simulation (rand : Nat → IterData)
    (exc : Option (Nat × String)) : List SimAction × Nat :=
  let body := tryBlockActions rand
  match exc with
  | none => (credentialActions ++ body ++ finallyActions, 0)
  | some (k, msg) =>
    (credentialActions ++ body.take k
      ++ [SimAction.printLine ("An error occurred: " ++ msg)]
      ++ finallyActions, 0)

/-! ## simulate_sensor_data.py (RPC variant) -/

/-- A broken-down local time, the input of
`time.strftime("%Y-%m-%d %H:%M:%S")`. -/
structure Tm where
  year : Nat
  month : Nat
  mday : Nat
  hour : Nat
  minute : Nat
  sec : Nat
deriving DecidableEq, Repr

/-- Zero-padding to two characters, the `%m`/`%d`/`%H`/`%M`/`%S`
conversions of `strftime` for values below 100. -/
def pad2Chars (n : Nat) : List Char :=
  if n < 10 then '0' :: natChars n else natChars n

/-- The characters `time.strftime("%Y-%m-%d %H:%M:%S")` produces from a
broken-down time (`%Y` prints the year unpadded, the rest zero-padded to
two digits). -/
def strftimeChars (t : Tm) : List Char :=
  natChars t.year ++ '-' ::
    (pad2Chars t.month ++ '-' ::
      (pad2Chars t.mday ++ ' ' ::
        (pad2Chars t.hour ++ ':' ::
          (pad2Chars t.minute ++ ':' :: pad2Chars t.sec))))

/-- `time.strftime("%Y-%m-%d %H:%M:%S")` as a string. -/
def strftime_ymd_hms (t : Tm) : String :=
  String.mk (strftimeChars t)

/-- The library/clock values one call of `generate_sensor_data`
consumes: the three unit draws behind `random.uniform` and the current
local time behind `time.strftime`. -/
structure SensorRand where
  u1 : ℚ
  u2 : ℚ
  u3 : ℚ
  tm : Tm
deriving Repr

/-- The `sensor_pb2.SensorData` message record. -/
structure SensorData where
  sensor_id : String
  temperature : ℚ
  pressure : ℚ
  humidity : ℚ
  timestamp : String
deriving DecidableEq, Repr

/-- `generate_sensor_data()`: a fresh `SensorData` with the constant id,
three uniform draws, and the formatted current time. -/
def generate_sensor_data (r : SensorRand) : SensorData :=
  { sensor_id := "sensor-123"
    temperature := uniform 20 35 r.u1
    pressure := uniform 1000 1100 r.u2
    humidity := uniform 40 60 r.u3
    timestamp := strftime_ymd_hms r.tm }

/-- One observable step of the RPC client's loop body. -/
inductive RpcAction where
  | send (d : SensorData)
  | printSent (d : SensorData)
  | sleep (t : ℚ)
deriving DecidableEq, Repr

/-- The guard of the `while True:` loop in simulate_sensor_data.py. -/
def rpc_loop_guard : Bool := true

/-- One cycle of the loop body: generate the reading, send it through
the stub, print the confirmation, sleep 5 seconds. -/
def rpc_loop_iteration (r : SensorRand) : List RpcAction :=
  [RpcAction.send (generate_sensor_data r),
   RpcAction.printSent (generate_sensor_data r),
   RpcAction.sleep 5]

/-- The trace of the first `n` cycles of the loop. -/
def rpc_loop_trace (rand : Nat → SensorRand) (n : Nat) : List RpcAction :=
  ((List.range n).map (fun i => rpc_loop_iteration (rand i))).flatten

/-- The loop's only control state. -/
inductive RpcState where
  | running
deriving DecidableEq, Repr

/-- The control state after `n` guard checks: `some .running` while the
loop keeps going, `none` once the guard has failed and the loop exited
normally.  The guard is the literal `True`, so it never fails. -/
def rpc_state_after : Nat → Option RpcState
  | 0 => some RpcState.running
  | n + 1 =>
    match rpc_state_after n with
    | some RpcState.running => if rpc_loop_guard then some RpcState.running else none
    | none => none

/-! ## Predicates used to state the claims -/

/-- Characters `json.dumps` passes through unchanged: printable ASCII
other than the quote and the backslash. -/
def jsonSafeChar (c : Char) : Bool :=
  decide (c ≠ '"' ∧ c ≠ '\\' ∧ 32 ≤ c.toNat ∧ c.toNat < 127)

/-- A string every character of which survives JSON escaping
unchanged. -/
def jsonSafe (s : String) : Bool := s.toList.all jsonSafeChar

/-- Whether a character list matches the pattern
`YYYY-MM-DD HH:MM:SS`. -/
def isTsPattern : List Char → Bool
  | [y1, y2, y3, y4, '-', m1, m2, '-', d1, d2, ' ',
     h1, h2, ':', n1, n2, ':', s1, s2] =>
    [y1, y2, y3, y4, m1, m2, d1, d2, h1, h2, n1, n2, s1, s2].all Char.isDigit
  | _ => false

/-- Whether an action is the logging of the caught exception. -/
def isErrorLine (a : SimAction) : Bool :=
  match a with
  | .printLine s => List.isPrefixOf "An error occurred: ".toList s.toList
  | _ => false

/-- Whether an action is an MQTT publish. -/
def isPublishAct (a : SimAction) : Bool :=
  match a with
  | .publish _ _ => true
  | _ => false

/-! ## Theorems -/

/-- C1: with `quantity_change` drawn from the loop's choice list
`[-2, -1, 1, 2]`, the payload's `event_type` is `"restock"` iff
`quantity_change > 0`, and is `"sales"` otherwise. -/
theorem c1_event_type_iff_positive (r : IterRand) (store item_id : String)
    (qc : Int) (hqc : qc ∈ QUANTITY_CHOICES) :
    ((publish_inventory_event r store item_id qc).1.event_type = "restock" ↔ 0 < qc)
    ∧ ((publish_inventory_event r store item_id qc).1.event_type = "sales" ↔ ¬ 0 < qc) := by
  have hcases : qc = -2 ∨ qc = -1 ∨ qc = 1 ∨ qc = 2 := by
    simpa [QUANTITY_CHOICES] using hqc
  rcases hcases with h | h | h | h <;> subst h <;>
    simp [publish_inventory_event]

/-- Witness for C1 at `quantity_change = 1`. -/
theorem c1_event_type_iff_positive_witness :
    ((publish_inventory_event ⟨"2024-01-01T00:00:00", "u1", 0⟩ "london" "TSHIRT-001" 1).1.event_type
        = "restock" ↔ 0 < (1 : Int))
    ∧ ((publish_inventory_event ⟨"2024-01-01T00:00:00", "u1", 0⟩ "london" "TSHIRT-001" 1).1.event_type
        = "sales" ↔ ¬ 0 < (1 : Int)) :=
  c1_event_type_iff_positive ⟨"2024-01-01T00:00:00", "u1", 0⟩ "london" "TSHIRT-001" 1 (by decide)

/-- C3 counterexample: two invocations with the same store, item,
quantity_change and wall-clock time but distinct `uuid.uuid4()` draws
produce payloads that differ (in `event_id`), so the payload is not a
function of the three inputs plus time alone. -/
theorem c3_counterexample :
    (⟨"2024-01-01T00:00:00", "aaaa", 0⟩ : IterRand).now_iso
      = (⟨"2024-01-01T00:00:00", "bbbb", 0⟩ : IterRand).now_iso
    ∧ (publish_inventory_event ⟨"2024-01-01T00:00:00", "aaaa", 0⟩ "london" "TSHIRT-001" 1).1
      ≠ (publish_inventory_event ⟨"2024-01-01T00:00:00", "bbbb", 0⟩ "london" "TSHIRT-001" 1).1 := by
  exact ⟨rfl, by decide⟩

/-- C3 amended: with the same store, item, quantity_change and the same
wall-clock time, the two payloads agree on every field except possibly
`event_id`, and if the two UUID draws also coincide the payloads are
equal field for field. -/
theorem c3_deterministic_given_uuid (r1 r2 : IterRand) (store item_id : String)
    (qc : Int) (ht : r1.now_iso = r2.now_iso) :
    ((publish_inventory_event r1 store item_id qc).1.item_id
        = (publish_inventory_event r2 store item_id qc).1.item_id
      ∧ (publish_inventory_event r1 store item_id qc).1.store_id
        = (publish_inventory_event r2 store item_id qc).1.store_id
      ∧ (publish_inventory_event r1 store item_id qc).1.quantity_change
        = (publish_inventory_event r2 store item_id qc).1.quantity_change
      ∧ (publish_inventory_event r1 store item_id qc).1.event_type
        = (publish_inventory_event r2 store item_id qc).1.event_type
      ∧ (publish_inventory_event r1 store item_id qc).1.timestamp
        = (publish_inventory_event r2 store item_id qc).1.timestamp)
    ∧ (r1.uuid = r2.uuid →
        (publish_inventory_event r1 store item_id qc).1
          = (publish_inventory_event r2 store item_id qc).1) := by
  refine ⟨⟨rfl, rfl, rfl, rfl, ht⟩, fun hu => ?_⟩
  simp [publish_inventory_event, ht, hu]

/-- Witness for the amended C3. -/
theorem c3_deterministic_given_uuid_witness :
    ((publish_inventory_event ⟨"2024-01-01T00:00:00", "aaaa", 0⟩ "london" "TSHIRT-001" 1).1.item_id
        = (publish_inventory_event ⟨"2024-01-01T00:00:00", "aaaa", 1⟩ "london" "TSHIRT-001" 1).1.item_id
      ∧ (publish_inventory_event ⟨"2024-01-01T00:00:00", "aaaa", 0⟩ "london" "TSHIRT-001" 1).1.store_id
        = (publish_inventory_event ⟨"2024-01-01T00:00:00", "aaaa", 1⟩ "london" "TSHIRT-001" 1).1.store_id
      ∧ (publish_inventory_event ⟨"2024-01-01T00:00:00", "aaaa", 0⟩ "london" "TSHIRT-001" 1).1.quantity_change
        = (publish_inventory_event ⟨"2024-01-01T00:00:00", "aaaa", 1⟩ "london" "TSHIRT-001" 1).1.quantity_change
      ∧ (publish_inventory_event ⟨"2024-01-01T00:00:00", "aaaa", 0⟩ "london" "TSHIRT-001" 1).1.event_type
        = (publish_inventory_event ⟨"2024-01-01T00:00:00", "aaaa", 1⟩ "london" "TSHIRT-001" 1).1.event_type
      ∧ (publish_inventory_event ⟨"2024-01-01T00:00:00", "aaaa", 0⟩ "london" "TSHIRT-001" 1).1.timestamp
        = (publish_inventory_event ⟨"2024-01-01T00:00:00", "aaaa", 1⟩ "london" "TSHIRT-001" 1).1.timestamp)
    ∧ ((⟨"2024-01-01T00:00:00", "aaaa", 0⟩ : IterRand).uuid
          = (⟨"2024-01-01T00:00:00", "aaaa", 1⟩ : IterRand).uuid →
        (publish_inventory_event ⟨"2024-01-01T00:00:00", "aaaa", 0⟩ "london" "TSHIRT-001" 1).1
          = (publish_inventory_event ⟨"2024-01-01T00:00:00", "aaaa", 1⟩ "london" "TSHIRT-001" 1).1) :=
  c3_deterministic_given_uuid ⟨"2024-01-01T00:00:00", "aaaa", 0⟩
    ⟨"2024-01-01T00:00:00", "aaaa", 1⟩ "london" "TSHIRT-001" 1 rfl

/-- C9: the code classifies by `quantity_change < 0`, so every
non-negative quantity_change, including the edge case 0, is labeled
`"restock"`. -/
theorem c9_nonneg_is_restock (r : IterRand) (store item_id : String)
    (qc : Int) (h : 0 ≤ qc) :
    (publish_inventory_event r store item_id qc).1.event_type = "restock" := by
  simp [publish_inventory_event, not_lt.mpr h]

/-- Witness for C9 at the edge case `quantity_change = 0`. -/
theorem c9_nonneg_is_restock_witness :
    (publish_inventory_event ⟨"2024-01-01T00:00:00", "u1", 0⟩ "london" "TSHIRT-001" 0).1.event_type
      = "restock" :=
  c9_nonneg_is_restock ⟨"2024-01-01T00:00:00", "u1", 0⟩ "london" "TSHIRT-001" 0 (by decide)

/-- C10: the payload's `store_id` equals the function's `store`
argument, and the message is published to exactly
`store/` ++ store_id ++ `/inventory`: topic routing and payload content
can never disagree about the store. -/
theorem c10_topic_matches_store_id (r : IterRand) (store item_id : String)
    (qc : Int) :
    (publish_inventory_event r store item_id qc).1.store_id = store
    ∧ (publish_inventory_event r store item_id qc).2.head?
        = some (SimAction.publish
            (inventory_topic ((publish_inventory_event r store item_id qc).1.store_id))
            (json_dumps (payloadJObj (publish_inventory_event r store item_id qc).1))) := by
  exact ⟨rfl, rfl⟩

/-- C7: the RPC variant's `while True` loop never reaches a terminal
state after any number of guard checks, and each cycle appends exactly
one send of the freshly generated reading, one confirmation print, and
one fixed 5-second sleep. -/
theorem c7_rpc_loop_runs_forever (rand : Nat → SensorRand) (n : Nat) :
    rpc_state_after n = some RpcState.running
    ∧ rpc_loop_trace rand (n + 1)
        = rpc_loop_trace rand n
          ++ [RpcAction.send (generate_sensor_data (rand n)),
              RpcAction.printSent (generate_sensor_data (rand n)),
              RpcAction.sleep 5] := by
  constructor
  · induction n with
    | zero => rfl
    | succ m ih => simp [rpc_state_after, ih, rpc_loop_guard]
  · simp [rpc_loop_trace, List.range_succ, rpc_loop_iteration]

/-! ## Decimal-rendering lemmas -/

/-- The fuelled digit rendering agrees with `Nat.digits` once the fuel
covers the number. -/
theorem natDigitsAux_eq (fuel n : Nat) (h : n ≤ fuel) :
    natDigitsAux fuel n = (Nat.digits 10 n).reverse.map digitChar := by
  induction fuel generalizing n with
  | zero =>
    have hn : n = 0 := Nat.le_zero.mp h
    subst hn
    simp [natDigitsAux]
  | succ fuel ih =>
    match n with
    | 0 => simp [natDigitsAux]
    | m + 1 =>
      have hdiv : (m + 1) / 10 ≤ fuel :=
        Nat.le_of_lt_succ
          (Nat.lt_of_lt_of_le (Nat.div_lt_self (Nat.succ_pos m) (by norm_num)) h)
      rw [natDigitsAux, ih _ hdiv,
        Nat.digits_def' (by norm_num : (1 : Nat) < 10) (Nat.succ_pos m)]
      simp

/-- `natChars` on a nonzero number renders the digits of `Nat.digits`. -/
theorem natChars_def (n : Nat) (hn : n ≠ 0) :
    natChars n = (Nat.digits 10 n).reverse.map digitChar := by
  unfold natChars
  rw [if_neg hn, natDigitsAux_eq n n le_rfl]

/-- The digit characters are decimal digits. -/
theorem digitChar_isDigit (d : Nat) (h : d < 10) : (digitChar d).isDigit = true := by
  interval_cases d <;> decide

/-- Every character `natChars` produces is a decimal digit. -/
theorem natChars_all_digits (n : Nat) : ∀ c ∈ natChars n, c.isDigit = true := by
  by_cases hn : n = 0
  · subst hn
    intro c hc
    simp [natChars] at hc
    subst hc
    decide
  · rw [natChars_def n hn]
    intro c hc
    simp only [List.mem_map, List.mem_reverse] at hc
    obtain ⟨d, hd, rfl⟩ := hc
    exact digitChar_isDigit d (Nat.digits_lt_base (by norm_num) hd)

/-- The decimal rendering of `n` with `10 ^ k ≤ n < 10 ^ (k + 1)` has
`k + 1` characters. -/
theorem natChars_length (k n : Nat) (h1 : 10 ^ k ≤ n) (h2 : n < 10 ^ (k + 1)) :
    (natChars n).length = k + 1 := by
  have hn : n ≠ 0 := by
    have : 1 ≤ n := le_trans (Nat.one_le_pow k 10 (by norm_num)) h1
    omega
  rw [natChars_def n hn]
  simp [Nat.digits_len 10 n (by norm_num) hn,
    Nat.log_eq_of_pow_le_of_lt_pow h1 h2]

/-- A list of length four is literally four elements. -/
theorem exists_four_of_length {α : Type} (l : List α) (h : l.length = 4) :
    ∃ a b c d, l = [a, b, c, d] := by
  cases l with
  | nil => simp at h
  | cons a t =>
    have ht : t.length = 3 := by simpa using h
    obtain ⟨b, c, d, rfl⟩ := List.length_eq_three.mp ht
    exact ⟨a, b, c, d, rfl⟩

/-- `pad2Chars` of a value below 100 is two decimal digits. -/
theorem pad2Chars_shape (n : Nat) (h : n < 100) :
    ∃ a b, pad2Chars n = [a, b] ∧ a.isDigit = true ∧ b.isDigit = true := by
  unfold pad2Chars
  by_cases h10 : n < 10
  · rw [if_pos h10]
    have hlen : (natChars n).length = 1 := by
      by_cases hn : n = 0
      · subst hn; rfl
      · exact natChars_length 0 n (by omega) (by simpa using h10)
    obtain ⟨a, ha⟩ := List.length_eq_one.mp hlen
    refine ⟨'0', a, by rw [ha], by decide, ?_⟩
    exact natChars_all_digits n a (ha ▸ List.mem_singleton_self a)
  · rw [if_neg h10]
    have hlen : (natChars n).length = 2 :=
      natChars_length 1 n (by omega) (by simpa using h)
    obtain ⟨a, b, hab⟩ := List.length_eq_two.mp hlen
    exact ⟨a, b, hab,
      natChars_all_digits n a (hab ▸ List.mem_cons_self a [b]),
      natChars_all_digits n b (hab ▸ List.mem_cons_of_mem a (List.mem_singleton_self b))⟩

/-- A year between 1000 and 9999 renders as four decimal digits. -/
theorem natChars_year_shape (y : Nat) (h1 : 1000 ≤ y) (h2 : y ≤ 9999) :
    ∃ a b c d, natChars y = [a, b, c, d]
      ∧ a.isDigit = true ∧ b.isDigit = true ∧ c.isDigit = true ∧ d.isDigit = true := by
  have hlen : (natChars y).length = 4 :=
    natChars_length 3 y (by norm_num; omega) (by norm_num; omega)
  obtain ⟨a, b, c, d, habcd⟩ := exists_four_of_length (natChars y) hlen
  refine ⟨a, b, c, d, habcd, ?_, ?_, ?_, ?_⟩ <;>
    apply natChars_all_digits y <;> rw [habcd] <;> simp

/-- `random.uniform a b` stays in `[a, b]` for a unit draw. -/
theorem uniform_mem (a b u : ℚ) (hab : a ≤ b) (h0 : 0 ≤ u) (h1 : u ≤ 1) :
    a ≤ uniform a b u ∧ uniform a b u ≤ b := by
  unfold uniform
  constructor
  · nlinarith
  · nlinarith

/-- The formatted time matches `YYYY-MM-DD HH:MM:SS` whenever the
broken-down fields are in the ranges `localtime` produces (a four-digit
year, two-digit remaining fields). -/
theorem strftimeChars_pattern (t : Tm)
    (hy1 : 1000 ≤ t.year) (hy2 : t.year ≤ 9999)
    (hmo : t.month < 100) (hmd : t.mday < 100) (hh : t.hour < 100)
    (hmi : t.minute < 100) (hs : t.sec < 100) :
    isTsPattern (strftimeChars t) = true := by
  obtain ⟨y1, y2, y3, y4, hy, hy1d, hy2d, hy3d, hy4d⟩ :=
    natChars_year_shape t.year hy1 hy2
  obtain ⟨a1, a2, ha, ha1, ha2⟩ := pad2Chars_shape t.month hmo
  obtain ⟨b1, b2, hb, hb1, hb2⟩ := pad2Chars_shape t.mday hmd
  obtain ⟨c1, c2, hc, hc1, hc2⟩ := pad2Chars_shape t.hour hh
  obtain ⟨d1, d2, hdd, hd1, hd2⟩ := pad2Chars_shape t.minute hmi
  obtain ⟨e1, e2, he, he1, he2⟩ := pad2Chars_shape t.sec hs
  rw [strftimeChars, hy, ha, hb, hc, hdd, he]
  simp [isTsPattern, hy1d, hy2d, hy3d, hy4d, ha1, ha2, hb1, hb2,
    hc1, hc2, hd1, hd2, he1, he2]

/-- C2: every reading `generate_sensor_data` returns has the constant
sensor id, temperature in [20, 35], pressure in [1000, 1100], humidity
in [40, 60], and a timestamp formatted `YYYY-MM-DD HH:MM:SS`, given
that the unit draws are in [0, 1] and the local time is within the
ranges `localtime` produces. -/
theorem c2_sensor_reading_ranges (r : SensorRand)
    (hu1a : 0 ≤ r.u1) (hu1b : r.u1 ≤ 1)
    (hu2a : 0 ≤ r.u2) (hu2b : r.u2 ≤ 1)
    (hu3a : 0 ≤ r.u3) (hu3b : r.u3 ≤ 1)
    (hy1 : 1000 ≤ r.tm.year) (hy2 : r.tm.year ≤ 9999)
    (hmo : r.tm.month < 100) (hmd : r.tm.mday < 100) (hh : r.tm.hour < 100)
    (hmi : r.tm.minute < 100) (hs : r.tm.sec < 100) :
    (generate_sensor_data r).sensor_id = "sensor-123"
    ∧ 20 ≤ (generate_sensor_data r).temperature
    ∧ (generate_sensor_data r).temperature ≤ 35
    ∧ 1000 ≤ (generate_sensor_data r).pressure
    ∧ (generate_sensor_data r).pressure ≤ 1100
    ∧ 40 ≤ (generate_sensor_data r).humidity
    ∧ (generate_sensor_data r).humidity ≤ 60
    ∧ isTsPattern (generate_sensor_data r).timestamp.toList = true := by
  obtain ⟨ht1, ht2⟩ := uniform_mem 20 35 r.u1 (by norm_num) hu1a hu1b
  obtain ⟨hp1, hp2⟩ := uniform_mem 1000 1100 r.u2 (by norm_num) hu2a hu2b
  obtain ⟨hh1, hh2⟩ := uniform_mem 40 60 r.u3 (by norm_num) hu3a hu3b
  refine ⟨rfl, ht1, ht2, hp1, hp2, hh1, hh2, ?_⟩
  exact strftimeChars_pattern r.tm hy1 hy2 hmo hmd hh hmi hs

/-- Witness for C2 at a concrete draw and time. -/
theorem c2_sensor_reading_ranges_witness :
    (generate_sensor_data ⟨0, 0, 0, ⟨2024, 1, 2, 3, 4, 5⟩⟩).sensor_id = "sensor-123"
    ∧ 20 ≤ (generate_sensor_data ⟨0, 0, 0, ⟨2024, 1, 2, 3, 4, 5⟩⟩).temperature
    ∧ (generate_sensor_data ⟨0, 0, 0, ⟨2024, 1, 2, 3, 4, 5⟩⟩).temperature ≤ 35
    ∧ 1000 ≤ (generate_sensor_data ⟨0, 0, 0, ⟨2024, 1, 2, 3, 4, 5⟩⟩).pressure
    ∧ (generate_sensor_data ⟨0, 0, 0, ⟨2024, 1, 2, 3, 4, 5⟩⟩).pressure ≤ 1100
    ∧ 40 ≤ (generate_sensor_data ⟨0, 0, 0, ⟨2024, 1, 2, 3, 4, 5⟩⟩).humidity
    ∧ (generate_sensor_data ⟨0, 0, 0, ⟨2024, 1, 2, 3, 4, 5⟩⟩).humidity ≤ 60
    ∧ isTsPattern (generate_sensor_data ⟨0, 0, 0, ⟨2024, 1, 2, 3, 4, 5⟩⟩).timestamp.toList = true :=
  c2_sensor_reading_ranges ⟨0, 0, 0, ⟨2024, 1, 2, 3, 4, 5⟩⟩
    (by norm_num) (by norm_num) (by norm_num) (by norm_num) (by norm_num) (by norm_num)
    (by norm_num) (by norm_num) (by norm_num) (by norm_num) (by norm_num)
    (by norm_num) (by norm_num)

/-! ## Loop-trace lemmas -/

/-- One loop iteration's actions, spelled out: publish the serialized
payload to the store topic, print the confirmation, sleep the uniform
[10, 20] delay. -/
theorem iterationActions_eq (d : IterData) :
    iterationActions d
      = [SimAction.publish (inventory_topic (chosenStore d))
           (json_dumps (payloadJObj (iterationPayload d))),
         SimAction.printPublished (inventory_topic (chosenStore d)) (iterationPayload d),
         SimAction.sleep (uniform 10 20 d.rand.sleepU)] := rfl

/-- Each iteration performs exactly one publish. -/
theorem countP_publish_iteration (d : IterData) :
    (iterationActions d).countP isPublishAct = 1 := rfl

/-- No iteration logs an error line. -/
theorem countP_error_iteration (d : IterData) :
    (iterationActions d).countP isErrorLine = 0 := rfl

/-- The first `n` loop iterations perform exactly `n` publishes. -/
theorem countP_publish_iterations (rand : Nat → IterData) (n : Nat) :
    (((List.range n).map (fun i => iterationActions (rand i))).flatten).countP isPublishAct
      = n := by
  induction n with
  | zero => rfl
  | succ m ih =>
    rw [List.range_succ]
    simp [List.countP_append, ih, countP_publish_iteration]

/-- The loop iterations log no error line. -/
theorem countP_error_iterations (rand : Nat → IterData) (n : Nat) :
    (((List.range n).map (fun i => iterationActions (rand i))).flatten).countP isErrorLine
      = 0 := by
  induction n with
  | zero => rfl
  | succ m ih =>
    rw [List.range_succ]
    simp [List.countP_append, ih, countP_error_iteration]

/-- The credential branch is skipped: both constants are empty. -/
theorem credentialActions_eq : credentialActions = [] := by
  simp [credentialActions, MQTT_USER, MQTT_PASSWORD]

/-- The whole `try` block logs no error line. -/
theorem countP_error_tryBlock (rand : Nat → IterData) :
    (tryBlockActions rand).countP isErrorLine = 0 := by
  unfold tryBlockActions
  simp only [List.countP_append, countP_error_iterations rand 100]
  decide

/-- The caught-exception log line satisfies `isErrorLine`. -/
theorem isErrorLine_errorPrint (msg : String) :
    isErrorLine (SimAction.printLine ("An error occurred: " ++ msg)) = true := by
  simp only [isErrorLine]
  have h : ("An error occurred: " ++ msg).toList
      = "An error occurred: ".toList ++ msg.toList := String.data_append _ _
  rw [h, List.isPrefixOf_iff_prefix]
  exact List.prefix_append _ _

/-- C4: a normal (exception-free) run of `run_sensor_simulation`
connects, starts the network loop, prints the banner, runs exactly 100
iterations (one publish each, stores/items/quantities from the fixed
catalogs, a uniform [10, 20] suspension), then sleeps 5 time units,
stops the loop and disconnects, exiting 0. -/
theorem c4_loop_driver_100_iterations (rand : Nat → IterData)
    (hU : ∀ i, 0 ≤ (rand i).rand.sleepU ∧ (rand i).rand.sleepU ≤ 1) :
    (run_sensor_simulation rand none).1
      = [SimAction.connect MQTT_BROKER MQTT_PORT 60, SimAction.loopStart,
         SimAction.printLine "Starting inventory sensor simulation..."]
        ++ ((List.range 100).map (fun i => iterationActions (rand i))).flatten
        ++ [SimAction.sleep 5, SimAction.loopStop, SimAction.disconnect,
            SimAction.printLine "Simulation finished."]
    ∧ (run_sensor_simulation rand none).1.countP isPublishAct = 100
    ∧ (run_sensor_simulation rand none).2 = 0
    ∧ ∀ i, i < 100 →
        iterationActions (rand i)
          = [SimAction.publish (inventory_topic (chosenStore (rand i)))
               (json_dumps (payloadJObj (iterationPayload (rand i)))),
             SimAction.printPublished (inventory_topic (chosenStore (rand i)))
               (iterationPayload (rand i)),
             SimAction.sleep (uniform 10 20 (rand i).rand.sleepU)]
        ∧ chosenStore (rand i) ∈ STORES
        ∧ chosenItem (rand i) ∈ ITEMS
        ∧ chosenQc (rand i) ∈ QUANTITY_CHOICES
        ∧ 10 ≤ uniform 10 20 (rand i).rand.sleepU
        ∧ uniform 10 20 (rand i).rand.sleepU ≤ 20 := by
  have htrace : (run_sensor_simulation rand none).1
      = [SimAction.connect MQTT_BROKER MQTT_PORT 60, SimAction.loopStart,
         SimAction.printLine "Starting inventory sensor simulation..."]
        ++ ((List.range 100).map (fun i => iterationActions (rand i))).flatten
        ++ [SimAction.sleep 5, SimAction.loopStop, SimAction.disconnect,
            SimAction.printLine "Simulation finished."] := by
    simp [run_sensor_simulation, credentialActions_eq, tryBlockActions, finallyActions]
  refine ⟨htrace, ?_, rfl, ?_⟩
  · rw [htrace]
    simp only [List.countP_append, countP_publish_iterations rand 100]
    decide
  · intro i _
    obtain ⟨h0, h1⟩ := hU i
    obtain ⟨ha, hb⟩ := uniform_mem 10 20 (rand i).rand.sleepU (by norm_num) h0 h1
    refine ⟨iterationActions_eq (rand i), ?_, ?_, ?_, ha, hb⟩
    · exact List.get_mem STORES _ _
    · exact List.get_mem ITEMS _ _
    · exact List.get_mem QUANTITY_CHOICES _ _

/-- Witness for C4 with a constant random stream. -/
theorem c4_loop_driver_100_iterations_witness :
    ((run_sensor_simulation (fun _ => ⟨0, 0, 0, ⟨"2024-01-01T00:00:00", "u1", 0⟩⟩) none).1
      = [SimAction.connect MQTT_BROKER MQTT_PORT 60, SimAction.loopStart,
         SimAction.printLine "Starting inventory sensor simulation..."]
        ++ ((List.range 100).map (fun i => iterationActions
              ((fun _ : Nat => (⟨0, 0, 0, ⟨"2024-01-01T00:00:00", "u1", 0⟩⟩ : IterData)) i))).flatten
        ++ [SimAction.sleep 5, SimAction.loopStop, SimAction.disconnect,
            SimAction.printLine "Simulation finished."])
    ∧ (run_sensor_simulation (fun _ => ⟨0, 0, 0, ⟨"2024-01-01T00:00:00", "u1", 0⟩⟩) none).1.countP
        isPublishAct = 100
    ∧ (run_sensor_simulation (fun _ => ⟨0, 0, 0, ⟨"2024-01-01T00:00:00", "u1", 0⟩⟩) none).2 = 0
    ∧ ∀ i, i < 100 →
        iterationActions ((fun _ : Nat => (⟨0, 0, 0, ⟨"2024-01-01T00:00:00", "u1", 0⟩⟩ : IterData)) i)
          = [SimAction.publish
               (inventory_topic (chosenStore ((fun _ : Nat => (⟨0, 0, 0, ⟨"2024-01-01T00:00:00", "u1", 0⟩⟩ : IterData)) i)))
               (json_dumps (payloadJObj (iterationPayload
                 ((fun _ : Nat => (⟨0, 0, 0, ⟨"2024-01-01T00:00:00", "u1", 0⟩⟩ : IterData)) i)))),
             SimAction.printPublished
               (inventory_topic (chosenStore ((fun _ : Nat => (⟨0, 0, 0, ⟨"2024-01-01T00:00:00", "u1", 0⟩⟩ : IterData)) i)))
               (iterationPayload ((fun _ : Nat => (⟨0, 0, 0, ⟨"2024-01-01T00:00:00", "u1", 0⟩⟩ : IterData)) i)),
             SimAction.sleep (uniform 10 20
               ((fun _ : Nat => (⟨0, 0, 0, ⟨"2024-01-01T00:00:00", "u1", 0⟩⟩ : IterData)) i).rand.sleepU)]
        ∧ chosenStore ((fun _ : Nat => (⟨0, 0, 0, ⟨"2024-01-01T00:00:00", "u1", 0⟩⟩ : IterData)) i) ∈ STORES
        ∧ chosenItem ((fun _ : Nat => (⟨0, 0, 0, ⟨"2024-01-01T00:00:00", "u1", 0⟩⟩ : IterData)) i) ∈ ITEMS
        ∧ chosenQc ((fun _ : Nat => (⟨0, 0, 0, ⟨"2024-01-01T00:00:00", "u1", 0⟩⟩ : IterData)) i) ∈ QUANTITY_CHOICES
        ∧ 10 ≤ uniform 10 20 ((fun _ : Nat => (⟨0, 0, 0, ⟨"2024-01-01T00:00:00", "u1", 0⟩⟩ : IterData)) i).rand.sleepU
        ∧ uniform 10 20 ((fun _ : Nat => (⟨0, 0, 0, ⟨"2024-01-01T00:00:00", "u1", 0⟩⟩ : IterData)) i).rand.sleepU ≤ 20 :=
  c4_loop_driver_100_iterations (fun _ => ⟨0, 0, 0, ⟨"2024-01-01T00:00:00", "u1", 0⟩⟩)
    (fun _ => ⟨by norm_num, by norm_num⟩)

/-- C6: whatever exception of class `Exception` surfaces at whatever
point of the `try` block, the run logs exactly one error line, still
executes the cleanup actions (loop stop, disconnect, closing print),
and exits 0 through the same `finally`-then-return path as a normal
run. -/
theorem c6_exception_graceful_shutdown (rand : Nat → IterData) (k : Nat) (msg : String) :
    (run_sensor_simulation rand (some (k, msg))).2 = 0
    ∧ (run_sensor_simulation rand none).2 = 0
    ∧ (run_sensor_simulation rand (some (k, msg))).1
        = (tryBlockActions rand).take k
          ++ [SimAction.printLine ("An error occurred: " ++ msg)]
          ++ finallyActions
    ∧ (run_sensor_simulation rand none).1 = tryBlockActions rand ++ finallyActions
    ∧ (run_sensor_simulation rand (some (k, msg))).1.countP isErrorLine = 1 := by
  have htr : (run_sensor_simulation rand (some (k, msg))).1
      = (tryBlockActions rand).take k
        ++ [SimAction.printLine ("An error occurred: " ++ msg)]
        ++ finallyActions := by
    simp [run_sensor_simulation, credentialActions_eq]
  refine ⟨rfl, rfl, htr, by simp [run_sensor_simulation, credentialActions_eq], ?_⟩
  rw [htr]
  have htake : ((tryBlockActions rand).take k).countP isErrorLine = 0 := by
    have hle := ((List.take_sublist k (tryBlockActions rand)).countP_le isErrorLine)
    rw [countP_error_tryBlock rand] at hle
    omega
  simp [List.countP_append, htake, isErrorLine_errorPrint msg, finallyActions]
  decide

/-- A publish found anywhere in the `try` block comes from one of the
100 loop iterations, and carries that iteration's topic and serialized
payload. -/
theorem publish_mem_tryBlock (rand : Nat → IterData) (t m : String)
    (h : SimAction.publish t m ∈ tryBlockActions rand) :
    ∃ i, i < 100
      ∧ t = inventory_topic (chosenStore (rand i))
      ∧ m = json_dumps (payloadJObj (iterationPayload (rand i))) := by
  unfold tryBlockActions at h
  simp only [List.mem_append] at h
  rcases h with (hpre | hflat) | hlast
  · simp at hpre
  · rcases List.mem_flatten.mp hflat with ⟨l, hl, hmem⟩
    rcases List.mem_map.mp hl with ⟨i, hi, rfl⟩
    rw [iterationActions_eq] at hmem
    simp only [List.mem_cons, List.not_mem_nil, or_false] at hmem
    rcases hmem with h | h | h
    · obtain ⟨ht, hm⟩ := SimAction.publish.inj h
      exact ⟨i, List.mem_range.mp hi, ht, hm⟩
    · simp at h
    · simp at h
  · simp at hlast

/-- C5: every publish the broker variant ever performs (on the normal
path or up to an exception) sends the JSON serialization of an
inventory payload whose serialized object has exactly the six fields
event_id, item_id, store_id, quantity_change, event_type, timestamp,
to the topic `store/` ++ store ++ `/inventory` for the store the
iteration selected. -/
theorem c5_publish_topic_and_fields (rand : Nat → IterData)
    (exc : Option (Nat × String)) (t m : String)
    (hmem : SimAction.publish t m ∈ (run_sensor_simulation rand exc).1) :
    ∃ i, i < 100
      ∧ t = inventory_topic (chosenStore (rand i))
      ∧ m = json_dumps (payloadJObj (iterationPayload (rand i)))
      ∧ (payloadJObj (iterationPayload (rand i))).map Prod.fst
          = ["event_id", "item_id", "store_id", "quantity_change", "event_type", "timestamp"] := by
  have hfin : SimAction.publish t m ∉ finallyActions := by simp [finallyActions]
  have hbody : SimAction.publish t m ∈ tryBlockActions rand := by
    cases exc with
    | none =>
      rw [run_sensor_simulation] at hmem
      simp only [credentialActions_eq, List.nil_append, List.mem_append] at hmem
      rcases hmem with h | h
      · exact h
      · exact absurd h hfin
    | some p =>
      obtain ⟨k, msg⟩ := p
      rw [run_sensor_simulation] at hmem
      simp only [credentialActions_eq, List.nil_append, List.mem_append,
        List.mem_singleton] at hmem
      rcases hmem with (h | h) | h
      · exact List.mem_of_mem_take h
      · exact absurd h (by simp)
      · exact absurd h hfin
  obtain ⟨i, hi, ht, hm⟩ := publish_mem_tryBlock rand t m hbody
  exact ⟨i, hi, ht, hm, rfl⟩

/-- Witness for C5: the publish of the first iteration of a concrete
run. -/
theorem c5_publish_topic_and_fields_witness :
    ∃ i, i < 100
      ∧ inventory_topic (chosenStore (⟨0, 0, 0, ⟨"2024-01-01T00:00:00", "u1", 0⟩⟩ : IterData))
          = inventory_topic (chosenStore ((fun _ : Nat => (⟨0, 0, 0, ⟨"2024-01-01T00:00:00", "u1", 0⟩⟩ : IterData)) i))
      ∧ json_dumps (payloadJObj (iterationPayload (⟨0, 0, 0, ⟨"2024-01-01T00:00:00", "u1", 0⟩⟩ : IterData)))
          = json_dumps (payloadJObj (iterationPayload ((fun _ : Nat => (⟨0, 0, 0, ⟨"2024-01-01T00:00:00", "u1", 0⟩⟩ : IterData)) i)))
      ∧ (payloadJObj (iterationPayload ((fun _ : Nat => (⟨0, 0, 0, ⟨"2024-01-01T00:00:00", "u1", 0⟩⟩ : IterData)) i))).map Prod.fst
          = ["event_id", "item_id", "store_id", "quantity_change", "event_type", "timestamp"] :=
  c5_publish_topic_and_fields
    (fun _ => ⟨0, 0, 0, ⟨"2024-01-01T00:00:00", "u1", 0⟩⟩) none
    (inventory_topic (chosenStore (⟨0, 0, 0, ⟨"2024-01-01T00:00:00", "u1", 0⟩⟩ : IterData)))
    (json_dumps (payloadJObj (iterationPayload (⟨0, 0, 0, ⟨"2024-01-01T00:00:00", "u1", 0⟩⟩ : IterData))))
    (by decide)

/-! ## Round-trip lemmas for the JSON fragment -/

/-- Escaping is the identity on JSON-safe characters. -/
theorem escapeList_safe (cs : List Char) (h : ∀ c ∈ cs, jsonSafeChar c = true) :
    escapeList cs = cs := by
  induction cs with
  | nil => rfl
  | cons c rest ih =>
    have hc := h c (List.mem_cons_self c rest)
    simp only [jsonSafeChar, decide_eq_true_eq] at hc
    obtain ⟨h1, h2, h3, h4⟩ := hc
    have h8 : c ≠ Char.ofNat 8 := by
      intro he; rw [he] at h3; exact absurd h3 (by decide)
    have h9 : c ≠ Char.ofNat 9 := by
      intro he; rw [he] at h3; exact absurd h3 (by decide)
    have h10 : c ≠ Char.ofNat 10 := by
      intro he; rw [he] at h3; exact absurd h3 (by decide)
    have h12 : c ≠ Char.ofNat 12 := by
      intro he; rw [he] at h3; exact absurd h3 (by decide)
    have h13 : c ≠ Char.ofNat 13 := by
      intro he; rw [he] at h3; exact absurd h3 (by decide)
    have hrange : ¬(c.toNat < 32 ∨ 127 ≤ c.toNat) := by omega
    rw [escapeList, ih (fun x hx => h x (List.mem_cons_of_mem _ hx))]
    rw [jsonEscapeChar, if_neg h1, if_neg h2, if_neg h8, if_neg h9,
      if_neg h10, if_neg h12, if_neg h13, if_neg hrange]
    rfl

/-- Parsing a string body made of safe characters stops exactly at the
closing quote. -/
theorem parseStringBody_safe (cs : List Char) (h : ∀ c ∈ cs, jsonSafeChar c = true)
    (rest : List Char) :
    parseStringBody (cs ++ '"' :: rest) = some (cs, rest) := by
  induction cs with
  | nil =>
    rw [List.nil_append, parseStringBody.eq_def]
    simp
  | cons c cs ih =>
    have hc := h c (List.mem_cons_self c cs)
    simp only [jsonSafeChar, decide_eq_true_eq] at hc
    obtain ⟨h1, h2, _, _⟩ := hc
    rw [List.cons_append, parseStringBody.eq_def]
    simp only [if_neg h1, if_neg h2, ih (fun x hx => h x (List.mem_cons_of_mem _ hx))]

/-- Parsing the rendering of a safe string literal returns the string
and the tail. -/
theorem parseValue_quote (s : String) (hs : jsonSafe s = true) (rest : List Char) :
    parseValue (quoteChars s ++ rest) = some (JVal.jstr s, rest) := by
  have hsafe : ∀ c ∈ s.toList, jsonSafeChar c = true := by
    simpa [jsonSafe, List.all_eq_true] using hs
  unfold quoteChars
  rw [List.cons_append, parseValue.eq_def]
  have : (escapeList s.toList ++ ['"']) ++ rest = escapeList s.toList ++ '"' :: rest := by
    simp
  rw [this, escapeList_safe s.toList hsafe]
  have hp : parseStringBody (s.data ++ '"' :: rest) = some (s.toList, rest) :=
    parseStringBody_safe s.toList hsafe rest
  simp [hp]

/-- Running the digit scanner over rendered digits followed by a
non-digit accumulates exactly the rendered value. -/
theorem parseDigitsAux_render (ds : List Nat) (hds : ∀ d ∈ ds, d < 10)
    (rest : List Char) (hrest : ∀ c ∈ rest.head?, c.isDigit = false) (acc : Nat) :
    parseDigitsAux (ds.map digitChar ++ rest) acc
      = (Nat.ofDigits 10 ds.reverse + acc * 10 ^ ds.length, rest) := by
  induction ds generalizing acc with
  | nil =>
    simp only [List.map_nil, List.nil_append, List.reverse_nil, Nat.ofDigits_nil,
      List.length_nil, pow_zero, Nat.mul_one, Nat.zero_add]
    cases rest with
    | nil => rfl
    | cons c r =>
      have hc : c.isDigit = false := hrest c (by simp)
      rw [parseDigitsAux.eq_def]
      simp [hc]
  | cons d ds ih =>
    have hd : d < 10 := hds d (List.mem_cons_self _ _)
    have hdig : (digitChar d).isDigit = true := digitChar_isDigit d hd
    have htn : (digitChar d).toNat - 48 = d := by
      interval_cases d <;> decide
    rw [List.map_cons, List.cons_append, parseDigitsAux.eq_def]
    simp only [hdig, if_pos, htn]
    rw [ih (fun x hx => hds x (List.mem_cons_of_mem _ hx)) (acc * 10 + d)]
    rw [List.reverse_cons, Nat.ofDigits_append, Nat.ofDigits_singleton]
    simp only [List.length_reverse, List.length_cons, Prod.mk.injEq, and_true]
    ring

/-- The decimal rendering of a natural number starts with a digit, and
scanning it back yields the number. -/
theorem natChars_parse_core (n : Nat) (rest : List Char)
    (hrest : ∀ c ∈ rest.head?, c.isDigit = false) :
    ∃ c cs, natChars n = c :: cs ∧ c.isDigit = true ∧ c ≠ '-' ∧ c ≠ '"'
      ∧ parseDigitsAux (cs ++ rest) (c.toNat - 48) = (n, rest) := by
  by_cases hn : n = 0
  · subst hn
    refine ⟨'0', [], rfl, by decide, by decide, by decide, ?_⟩
    have h0 := parseDigitsAux_render [] (by simp) rest hrest 0
    simpa using h0
  · rw [natChars_def n hn]
    have hne : (Nat.digits 10 n).reverse ≠ [] := by
      simp [Nat.digits_ne_nil_iff_ne_zero.mpr hn]
    obtain ⟨e, es, hees⟩ := List.exists_cons_of_ne_nil hne
    have hmem : ∀ d ∈ (Nat.digits 10 n).reverse, d < 10 := fun d hd =>
      Nat.digits_lt_base (by norm_num) (List.mem_reverse.mp hd)
    have he : e < 10 := hmem e (hees ▸ List.mem_cons_self _ _)
    have hes : ∀ d ∈ es, d < 10 := fun d hd => hmem d (hees ▸ List.mem_cons_of_mem _ hd)
    have htn : (digitChar e).toNat - 48 = e := by
      interval_cases e <;> decide
    have hdigits : Nat.digits 10 n = es.reverse ++ [e] := by
      have h := congrArg List.reverse hees
      simpa using h
    refine ⟨digitChar e, es.map digitChar, by rw [hees, List.map_cons],
      digitChar_isDigit e he, by interval_cases e <;> decide,
      by interval_cases e <;> decide, ?_⟩
    rw [parseDigitsAux_render es hes rest hrest, htn]
    have hvalue : Nat.ofDigits 10 es.reverse + e * 10 ^ es.length = n := by
      conv_rhs => rw [← Nat.ofDigits_digits 10 n, hdigits,
        Nat.ofDigits_append, Nat.ofDigits_singleton]
      rw [List.length_reverse]
      ring
    rw [hvalue]

/-- Parsing the decimal rendering of a Python int returns the int and
the tail. -/
theorem parseIntToken_intChars (n : Int) (rest : List Char)
    (hrest : ∀ c ∈ rest.head?, c.isDigit = false) :
    parseIntToken (intChars n ++ rest) = some (n, rest) := by
  unfold intChars
  by_cases hneg : n < 0
  · rw [if_pos hneg]
    obtain ⟨c, cs, hcs, hdig, _, _, hparse⟩ := natChars_parse_core n.natAbs rest hrest
    rw [List.cons_append, hcs, List.cons_append, parseIntToken.eq_def]
    simp only [if_pos rfl, hdig, if_pos, hparse]
    have : -((n.natAbs : Nat) : Int) = n := by omega
    rw [this]
  · rw [if_neg hneg]
    obtain ⟨c, cs, hcs, hdig, hminus, _, hparse⟩ := natChars_parse_core n.natAbs rest hrest
    rw [hcs, List.cons_append, parseIntToken.eq_def]
    simp only [if_neg hminus, hdig, if_pos, hparse]
    have : ((n.natAbs : Nat) : Int) = n := by omega
    rw [this]

/-- Parsing the rendering of an int value returns the int value. -/
theorem parseValue_int (n : Int) (rest : List Char)
    (hrest : ∀ c ∈ rest.head?, c.isDigit = false) :
    parseValue (intChars n ++ rest) = some (JVal.jint n, rest) := by
  have hih := parseIntToken_intChars n rest hrest
  unfold intChars at hih ⊢
  by_cases hneg : n < 0
  · rw [if_pos hneg] at hih ⊢
    rw [List.cons_append] at hih ⊢
    rw [parseValue.eq_def]
    simp only [if_neg (by decide : ¬('-' : Char) = '"'), hih]
  · rw [if_neg hneg] at hih ⊢
    obtain ⟨c, cs, hcs, _, _, hquote, _⟩ :=
      natChars_parse_core n.natAbs rest hrest
    rw [hcs] at hih ⊢
    rw [List.cons_append] at hih ⊢
    rw [parseValue.eq_def]
    simp only [if_neg hquote, hih]

/-- Parsing the rendered member list of a nonempty object with safe
strings consumes everything up to and including the closing brace. -/
theorem parseMembers_render (o : JObj) (ho : o ≠ [])
    (hsafe : ∀ kv ∈ o, jsonSafe kv.1 = true
      ∧ ∀ s, kv.2 = JVal.jstr s → jsonSafe s = true)
    (fuel : Nat) (hfuel : o.length ≤ fuel) :
    parseMembers fuel (membersChars o ++ ['}']) = some (o, []) := by
  induction o generalizing fuel with
  | nil => exact absurd rfl ho
  | cons kv rest ih =>
    obtain ⟨k, v⟩ := kv
    obtain ⟨hk, hv⟩ := hsafe (k, v) (List.mem_cons_self _ _)
    have hkey : ∀ c ∈ k.toList, jsonSafeChar c = true := by
      simpa [jsonSafe, List.all_eq_true] using hk
    cases fuel with
    | zero => simp at hfuel
    | succ f =>
      cases rest with
      | nil =>
        have htail : ∀ c ∈ (['}'] : List Char).head?, c.isDigit = false := by simp
        have hval : parseValue (jvalChars v ++ ['}']) = some (v, ['}']) := by
          cases v with
          | jstr s => exact parseValue_quote s (hv s rfl) ['}']
          | jint n => exact parseValue_int n ['}'] htail
        have happ : membersChars [(k, v)] ++ ['}']
            = '"' :: (k.toList ++ '"' :: (':' :: ' ' :: (jvalChars v ++ ['}']))) := by
          show memberChars (k, v) ++ ['}'] = _
          unfold memberChars quoteChars
          rw [escapeList_safe k.toList hkey]
          simp
        have hkparse : parseStringBody
            (k.data ++ '"' :: ':' :: ' ' :: (jvalChars v ++ ['}']))
            = some (k.toList, ':' :: ' ' :: (jvalChars v ++ ['}'])) :=
          parseStringBody_safe k.toList hkey _
        rw [happ, parseMembers.eq_def]
        simp [hkparse, hval]
      | cons kv2 rest2 =>
        have htail : ∀ c ∈ (',' :: ' ' :: (membersChars (kv2 :: rest2) ++ ['}'])).head?,
            c.isDigit = false := by simp
        have hval : parseValue (jvalChars v ++ (',' :: ' ' :: (membersChars (kv2 :: rest2) ++ ['}'])))
            = some (v, ',' :: ' ' :: (membersChars (kv2 :: rest2) ++ ['}'])) := by
          cases v with
          | jstr s => exact parseValue_quote s (hv s rfl) _
          | jint n => exact parseValue_int n _ htail
        have happ : membersChars ((k, v) :: kv2 :: rest2) ++ ['}']
            = '"' :: (k.toList ++ '"' :: (':' :: ' ' ::
                (jvalChars v ++ (',' :: ' ' :: (membersChars (kv2 :: rest2) ++ ['}']))))) := by
          show (memberChars (k, v) ++ ',' :: ' ' :: membersChars (kv2 :: rest2)) ++ ['}'] = _
          unfold memberChars quoteChars
          rw [escapeList_safe k.toList hkey]
          simp
        have hih : parseMembers f (membersChars (kv2 :: rest2) ++ ['}'])
            = some (kv2 :: rest2, []) := by
          refine ih (by simp) ?_ f ?_
          · intro kv' hkv'
            exact hsafe kv' (List.mem_cons_of_mem _ hkv')
          · simpa using hfuel
        have hkparse : parseStringBody
            (k.data ++ '"' :: ':' :: ' ' ::
              (jvalChars v ++ ',' :: ' ' :: (membersChars (kv2 :: rest2) ++ ['}'])))
            = some (k.toList, ':' :: ' ' ::
                (jvalChars v ++ ',' :: ' ' :: (membersChars (kv2 :: rest2) ++ ['}']))) :=
          parseStringBody_safe k.toList hkey _
        rw [happ, parseMembers.eq_def]
        simp [hkparse, hval, hih]

/-- The member rendering of a nonempty object starts with the opening
quote of the first key. -/
theorem membersChars_head (o : JObj) (ho : o ≠ []) :
    ∃ tl, membersChars o = '"' :: tl := by
  cases o with
  | nil => exact absurd rfl ho
  | cons kv rest =>
    cases rest with
    | nil => exact ⟨_, rfl⟩
    | cons kv2 rest2 => exact ⟨_, rfl⟩

/-- The rendering of an object has at least one character per member. -/
theorem length_le_membersChars (o : JObj) : o.length ≤ (membersChars o).length := by
  induction o with
  | nil => simp [membersChars]
  | cons kv rest ih =>
    cases rest with
    | nil => simp [membersChars, memberChars, quoteChars]
    | cons kv2 rest2 =>
      show (kv :: kv2 :: rest2).length
        ≤ (memberChars kv ++ ',' :: ' ' :: membersChars (kv2 :: rest2)).length
      simp only [List.length_cons, List.length_append] at ih ⊢
      omega

/-- Serializing a nonempty object of safe strings with `json_dumps` and
parsing the text back with `json_loads` returns the object unchanged. -/
theorem json_round_trip (o : JObj) (ho : o ≠ [])
    (hsafe : ∀ kv ∈ o, jsonSafe kv.1 = true
      ∧ ∀ s, kv.2 = JVal.jstr s → jsonSafe s = true) :
    json_loads (json_dumps o) = some o := by
  obtain ⟨tl, htl⟩ := membersChars_head o ho
  have hcs : membersChars o ++ ['}'] = '"' :: (tl ++ ['}']) := by
    rw [htl]; rfl
  have happly : parseMembers (('"' :: (tl ++ ['}'])).length + 1) ('"' :: (tl ++ ['}']))
      = some (o, []) := by
    rw [← hcs]
    refine parseMembers_render o ho hsafe _ ?_
    have h1 := length_le_membersChars o
    simp only [List.length_append, List.length_cons]
    omega
  unfold json_dumps json_loads
  rw [show (String.mk ('{' :: (membersChars o ++ ['}']))).toList
      = '{' :: (membersChars o ++ ['}']) from rfl, hcs]
  have happly2 : parseMembers (tl.length + 1 + 1 + 1) ('"' :: (tl ++ ['}']))
      = some (o, []) := by
    have heq : tl.length + 1 + 1 + 1 = ('"' :: (tl ++ ['}'])).length + 1 := by simp
    rw [heq]
    exact happly
  simp [happly2]

/-- C8: serializing the payload `publish_inventory_event` constructs to
JSON text and parsing the text back yields the payload object again,
field for field, whenever the four input strings are JSON-safe (as the
catalogs, UUIDs and ISO timestamps of the script are). -/
theorem c8_payload_json_round_trip (r : IterRand) (store item_id : String) (qc : Int)
    (hu : jsonSafe r.uuid = true) (hi : jsonSafe item_id = true)
    (hs : jsonSafe store = true) (ht : jsonSafe r.now_iso = true) :
    json_loads (json_dumps (payloadJObj (publish_inventory_event r store item_id qc).1))
      = some (payloadJObj (publish_inventory_event r store item_id qc).1) := by
  apply json_round_trip
  · simp [payloadJObj]
  · intro kv hkv
    simp only [payloadJObj, List.mem_cons, List.not_mem_nil, or_false] at hkv
    rcases hkv with rfl | rfl | rfl | rfl | rfl | rfl
    · refine ⟨(by decide : jsonSafe "event_id" = true), fun s hs' => ?_⟩
      rw [← JVal.jstr.inj hs']
      exact hu
    · refine ⟨(by decide : jsonSafe "item_id" = true), fun s hs' => ?_⟩
      rw [← JVal.jstr.inj hs']
      exact hi
    · refine ⟨(by decide : jsonSafe "store_id" = true), fun s hs' => ?_⟩
      rw [← JVal.jstr.inj hs']
      exact hs
    · exact ⟨(by decide : jsonSafe "quantity_change" = true), fun s hs' => by simp at hs'⟩
    · refine ⟨(by decide : jsonSafe "event_type" = true), fun s hs' => ?_⟩
      rw [← JVal.jstr.inj hs']
      show jsonSafe (publish_inventory_event r store item_id qc).1.event_type = true
      simp only [publish_inventory_event]
      split <;> decide
    · refine ⟨(by decide : jsonSafe "timestamp" = true), fun s hs' => ?_⟩
      rw [← JVal.jstr.inj hs']
      exact ht

/-- Witness for C8 at a concrete payload. -/
theorem c8_payload_json_round_trip_witness :
    json_loads (json_dumps (payloadJObj
        (publish_inventory_event ⟨"2024-01-01T00:00:00", "123e4567-e89b-12d3-a456-426614174000", 0⟩
          "london" "TSHIRT-001" (-2)).1))
      = some (payloadJObj
        (publish_inventory_event ⟨"2024-01-01T00:00:00", "123e4567-e89b-12d3-a456-426614174000", 0⟩
          "london" "TSHIRT-001" (-2)).1) :=
  c8_payload_json_round_trip
    ⟨"2024-01-01T00:00:00", "123e4567-e89b-12d3-a456-426614174000", 0⟩
    "london" "TSHIRT-001" (-2)
    (by decide) (by decide) (by decide) (by decide)
